import Mathlib

/-!
Shallow embedding of the inventree-stock-syncer repository:
`inventree_magento/magento_client.py` (MagentoClient) and
`inventree_magento_sync/plugin.py` (MagentoStockSyncPlugin).

HTTP traffic is modelled by an explicit outcome oracle (`HttpOutcome`):
the surfaced response of a request after the session's redirect/retry
layer, or a timeout, or a transport-level failure.  Python floats are
modelled as exact rationals, exceptions as `Except` / `Option` values,
and side effects (HTTP calls, log records) as explicit action traces.
-/

namespace MagentoSync

/-- A single-quote character, used by the Python log/error f-strings. -/
def sq : String := "\x27"

/-- Wrap a string in single quotes, as the Python f-strings do. -/
def quoted (s : String) : String := sq ++ s ++ sq

/-- Python value as found in the `kwargs` payload of an event. -/
inductive PyValue where
  | vNone
  | vInt (n : Int)
  | vStr (s : String)
deriving DecidableEq, Repr

/-- Python truthiness of `kwargs.get(key)`: `None`, `0` and `""` are falsy. -/
def pyTruthy : Option PyValue → Bool
  | none => false
  | some PyValue.vNone => false
  | some (PyValue.vInt n) => n != 0
  | some (PyValue.vStr s) => s != ""

/-- Integer content of a kwargs value (primary keys arrive as ints). -/
def pyValueToInt : Option PyValue → Int
  | some (PyValue.vInt n) => n
  | _ => 0

/-- Python truthiness of `stock_item.get("item_id")`: `None` and `0` are falsy. -/
def pyTruthyOptInt : Option Int → Bool
  | none => false
  | some n => n != 0

/-! ## URL encoding: `MagentoClient._encode_sku`, i.e. `urllib.parse.quote(sku, safe="")` -/

/-- Bytes `urllib.parse.quote` never escapes (ASCII letters, digits, `_.-~`);
with `safe=""` these are the only unescaped bytes. -/
def safeByte (b : Nat) : Bool :=
  (65 ≤ b && b ≤ 90) || (97 ≤ b && b ≤ 122) || (48 ≤ b && b ≤ 57) ||
    b == 95 || b == 46 || b == 45 || b == 126

/-- Uppercase hexadecimal digit, as `urllib.parse.quote` produces. -/
def hexDigit (n : Nat) : Char :=
  if n < 10 then Char.ofNat (48 + n) else Char.ofNat (55 + n)

/-- UTF-8 encoding of one character (Python `str.encode("utf-8")`, per char). -/
def utf8Bytes (c : Char) : List Nat :=
  let n := c.toNat
  if n < 128 then [n]
  else if n < 2048 then [192 + n / 64, 128 + n % 64]
  else if n < 65536 then [224 + n / 4096, 128 + n / 64 % 64, 128 + n % 64]
  else [240 + n / 262144, 128 + n / 4096 % 64, 128 + n / 64 % 64, 128 + n % 64]

/-- Percent-escape of one byte: `%XX` with uppercase hex digits. -/
def pctEncodeByte (b : Nat) : List Char :=
  ['%', hexDigit (b / 16 % 16), hexDigit (b % 16)]

/-- `quote` of one byte: kept verbatim when safe, percent-escaped otherwise. -/
def quoteByteChars (b : Nat) : List Char :=
  if safeByte b then [Char.ofNat b] else pctEncodeByte b

/-- `urllib.parse.quote(·, safe="")` on a character list. -/
def quoteChars : List Char → List Char
  | [] => []
  | c :: cs => (utf8Bytes c).foldr (fun b acc => quoteByteChars b ++ acc) (quoteChars cs)

/-- `MagentoClient._encode_sku`: percent-encode the SKU with no safe characters. -/
def _encode_sku (sku : String) : String := String.mk (quoteChars sku.data)

/-! ## The Magento client: `magento_client.py` -/

/-- The exception type raised by `MagentoClient` (carries the message string). -/
structure MagentoClientError where
  msg : String
deriving DecidableEq, Repr

/-- The fields of the stock-item JSON record that the code reads
(`stock_item.get("item_id")`, `stock_item.get("qty", 0)`); a missing
key is `none`. -/
structure StockRecord where
  item_id : Option Int := none
  qty : Option Rat := none
deriving DecidableEq, Repr

/-- Outcome of one HTTP request as surfaced to the calling code: the final
response (after the adapter's retry layer), a `requests.exceptions.Timeout`,
or any other `requests.exceptions.RequestException` (transport failure,
exhausted retries, ...). -/
inductive HttpOutcome where
  | response (status : Nat) (record : StockRecord)
  | timeout
  | transportError (cause : String)
deriving DecidableEq, Repr

/-- Stand-in for the text of the `requests.HTTPError` that
`raise_for_status` raises for a status in 400..599. -/
def httpStatusMsg (s : Nat) : String := toString s ++ " Error"

/-- Request body of the stock update: `{"stockItem": {"qty": ..., "is_in_stock": ...}}`. -/
structure StockItemBody where
  qty : Rat
  is_in_stock : Bool
deriving DecidableEq, Repr

/-- A PUT request issued by `update_stock_qty`: URL path and JSON body. -/
structure PutRequest where
  path : String
  body : StockItemBody
deriving DecidableEq, Repr

/-- Log severities used by the code. -/
inductive LogLevel where
  | debug
  | info
  | warning
  | error
deriving DecidableEq, Repr

/-- An observable side effect: an HTTP GET, an HTTP PUT, or a log record. -/
inductive Action where
  | httpGet (path : String)
  | httpPut (req : PutRequest)
  | log (level : LogLevel) (msg : String)
deriving DecidableEq, Repr

/-- The PUT (write) requests contained in a trace. -/
def putCalls (acts : List Action) : List Action :=
  acts.filter fun a => match a with
    | Action.httpPut _ => true
    | _ => false

/-- The remote HTTP calls (GET or PUT) contained in a trace. -/
def remoteCalls (acts : List Action) : List Action :=
  acts.filter fun a => match a with
    | Action.httpGet _ => true
    | Action.httpPut _ => true
    | _ => false

def getTimeoutMsg (sku : String) : String :=
  "Timeout getting stock for SKU " ++ quoted sku

def getApiErrMsg (sku cause : String) : String :=
  "API error for SKU " ++ quoted sku ++ ": " ++ cause

def getErrLogMsg (sku cause : String) : String :=
  "Error getting stock for SKU " ++ quoted sku ++ ": " ++ cause

def notFoundDebugMsg (sku : String) : String :=
  "SKU " ++ quoted sku ++ " not found in Magento"

/-- `MagentoClient.get_stock_item`.  Issues one GET on
`/stockItems/{encoded_sku}`; a 404 yields `none` (absent), a status in
400..599 or a timeout or transport failure raises `MagentoClientError`
(modelled as `Except.error`), and any other surfaced response returns the
parsed record (`response.raise_for_status()` only raises for 400..599).
Returns the action trace together with the Python return/raise. -/
def get_stock_item (sku : String) (out : HttpOutcome) :
    List Action × Except MagentoClientError (Option StockRecord) :=
  let a0 : List Action := [Action.httpGet ("/stockItems/" ++ _encode_sku sku)]
  match out with
  | HttpOutcome.timeout =>
      (a0 ++ [Action.log LogLevel.error (getTimeoutMsg sku)],
       Except.error ⟨getTimeoutMsg sku⟩)
  | HttpOutcome.transportError cause =>
      (a0 ++ [Action.log LogLevel.error (getErrLogMsg sku cause)],
       Except.error ⟨getApiErrMsg sku cause⟩)
  | HttpOutcome.response s rec =>
      if s = 404 then
        (a0 ++ [Action.log LogLevel.debug (notFoundDebugMsg sku)], Except.ok none)
      else if 400 ≤ s ∧ s < 600 then
        (a0 ++ [Action.log LogLevel.error (getErrLogMsg sku (httpStatusMsg s))],
         Except.error ⟨getApiErrMsg sku (httpStatusMsg s)⟩)
      else (a0, Except.ok (some rec))

/-- `MagentoClient.get_stock_qty`: fetch, then `float(stock_item.get("qty", 0))`;
`none` when the SKU is absent. -/
def get_stock_qty (sku : String) (out : HttpOutcome) :
    List Action × Except MagentoClientError (Option Rat) :=
  let fr := get_stock_item sku out
  match fr.2 with
  | Except.error e => (fr.1, Except.error e)
  | Except.ok none => (fr.1, Except.ok none)
  | Except.ok (some rec) => (fr.1, Except.ok (some (rec.qty.getD 0)))

def cannotUpdateMsg (sku : String) : String :=
  "Cannot update stock: SKU " ++ quoted sku ++ " not found in Magento"

def noItemIdMsg (sku : String) : String :=
  "No item_id found for SKU " ++ quoted sku

def updTimeoutMsg (sku : String) : String :=
  "Timeout updating stock for SKU " ++ quoted sku

def updApiErrMsg (sku cause : String) : String :=
  "API error updating SKU " ++ quoted sku ++ ": " ++ cause

def updErrLogMsg (sku cause : String) : String :=
  "Error updating stock for SKU " ++ quoted sku ++ ": " ++ cause

def updatedMsg (sku : String) (qty : Rat) (flag : Bool) : String :=
  "Updated Magento stock for " ++ quoted sku ++ ": qty=" ++ toString qty ++
    ", in_stock=" ++ toString flag

/-- URL path of the stock update PUT. -/
def putPath (sku : String) (item_id : Int) : String :=
  "/products/" ++ _encode_sku sku ++ "/stockItems/" ++ toString item_id

/-- `MagentoClient.update_stock_qty`.  First fetches the stock item (using
`fetchOut`); an absent SKU or a falsy `item_id` returns `false` with no
write.  Otherwise the in-stock flag is the caller's override if provided,
else `qty > 0`, and one PUT is issued (its outcome is `putOut`):
`raise_for_status` failures, timeouts and transport failures raise
`MagentoClientError`, every other surfaced response returns `true`. -/
def update_stock_qty (sku : String) (qty : Rat) (is_in_stock : Option Bool)
    (fetchOut putOut : HttpOutcome) :
    List Action × Except MagentoClientError Bool :=
  let fr := get_stock_item sku fetchOut
  match fr.2 with
  | Except.error e => (fr.1, Except.error e)
  | Except.ok none =>
      (fr.1 ++ [Action.log LogLevel.warning (cannotUpdateMsg sku)], Except.ok false)
  | Except.ok (some rec) =>
      if pyTruthyOptInt rec.item_id then
        let iid := rec.item_id.getD 0
        let flag := is_in_stock.getD (decide (qty > 0))
        let a1 := fr.1 ++ [Action.httpPut ⟨putPath sku iid, ⟨qty, flag⟩⟩]
        match putOut with
        | HttpOutcome.timeout =>
            (a1 ++ [Action.log LogLevel.error (updTimeoutMsg sku)],
             Except.error ⟨updTimeoutMsg sku⟩)
        | HttpOutcome.transportError cause =>
            (a1 ++ [Action.log LogLevel.error (updErrLogMsg sku cause)],
             Except.error ⟨updApiErrMsg sku cause⟩)
        | HttpOutcome.response s _ =>
            if 400 ≤ s ∧ s < 600 then
              (a1 ++ [Action.log LogLevel.error (updErrLogMsg sku (httpStatusMsg s))],
               Except.error ⟨updApiErrMsg sku (httpStatusMsg s)⟩)
            else (a1 ++ [Action.log LogLevel.info (updatedMsg sku qty flag)], Except.ok true)
      else (fr.1 ++ [Action.log LogLevel.error (noItemIdMsg sku)], Except.ok false)

/-! ## The plugin: `plugin.py` (MagentoStockSyncPlugin) -/

/-- The sync-relevant events (`STOCK_EVENTS`). -/
def STOCK_EVENTS : List String :=
  ["stock_stockitem.created", "stock_stockitem.saved", "stock_stockitem.deleted",
   "stockitem.quantityupdated", "stockitem.assignedtocustomer",
   "stockitem.returnedfromcustomer", "stockitem.split", "stockitem.moved",
   "stockitem.counted"]

/-- `MagentoClient.__init__` strips trailing slashes from the base URL. -/
def rstripSlash (s : String) : String :=
  String.mk ((s.data.reverse.dropWhile (fun c => c == '/')).reverse)

/-- A constructed client instance: its configuration plus a construction
nonce that distinguishes distinct instances built from equal settings. -/
structure MagentoClient where
  base_url : String
  token : String
  nonce : Nat
deriving DecidableEq, Repr

/-- `MagentoClient(base_url=url, token=token)`. -/
def mkMagentoClient (base_url token : String) (nonce : Nat) : MagentoClient :=
  ⟨rstripSlash base_url, token, nonce⟩

/-- The plugin's client-cache state: `_client`, `_cached_url`, `_cached_token`,
plus a fresh-nonce counter for modelling object identity. -/
structure PluginState where
  _client : Option MagentoClient
  _cached_url : String
  _cached_token : String
  fresh : Nat
deriving DecidableEq, Repr

/-- The `magento` property: returns `none` when URL or token is unset
(falsy); rebuilds the client when there is none yet or either cached
setting differs from the current one; otherwise returns the cached
instance unchanged. -/
def magento (st : PluginState) (url token : String) : Option MagentoClient × PluginState :=
  if url = "" ∨ token = "" then (none, st)
  else if st._client = none ∨ st._cached_url ≠ url ∨ st._cached_token ≠ token then
    let c := mkMagentoClient url token st.fresh
    (some c, ⟨some c, url, token, st.fresh + 1⟩)
  else (st._client, st)

/-- `wants_process_event`: membership in `STOCK_EVENTS`. -/
def wants_process_event (event : String) : Bool := STOCK_EVENTS.contains event

/-- The comparison `math.isclose(a, b, rel_tol, abs_tol)` on exact rationals:
`|a - b| <= max(rel_tol * max(|a|, |b|), abs_tol)`. -/
def isclose (a b rel_tol abs_tol : Rat) : Bool :=
  decide (|a - b| ≤ max (rel_tol * max |a| |b|) abs_tol)

/-- The reconciliation comparison of `_sync_part`:
`math.isclose(total_qty, m2_qty, rel_tol=1e-9, abs_tol=0.001)`. -/
def reconcileInSync (total_qty m2_qty : Rat) : Bool :=
  isclose total_qty m2_qty (1 / 1000000000) (1 / 1000)

def skuNotFoundSkipMsg (event sku : String) : String :=
  "[" ++ event ++ "] SKU " ++ quoted sku ++ " not found in Magento, skipping sync"

def inSyncMsg (event sku : String) (q : Rat) : String :=
  "[" ++ event ++ "] SKU " ++ quoted sku ++ " already in sync (qty=" ++ toString q ++ ")"

def wouldSyncMsg (event sku : String) (m2 lq : Rat) : String :=
  "[LOG_ONLY] [" ++ event ++ "] Would sync SKU " ++ quoted sku ++ ": Magento " ++
    toString m2 ++ " -> InvenTree " ++ toString lq

def syncedMsg (event sku : String) (m2 lq : Rat) : String :=
  "[" ++ event ++ "] Synced SKU " ++ quoted sku ++ ": Magento " ++ toString m2 ++
    " -> " ++ toString lq

def syncFailedMsg (event sku : String) : String :=
  "[" ++ event ++ "] Failed to sync SKU " ++ quoted sku

def apiErrorLogMsg (event sku cause : String) : String :=
  "[" ++ event ++ "] Magento API error for SKU " ++ quoted sku ++ ": " ++ cause

def noNameMsg (pk : Int) : String :=
  "Part " ++ toString pk ++ " has no name, skipping sync"

/-- The client-call outcomes one `_sync_part` run can consume: the surfaced
outcome of its `get_stock_qty` fetch, and of the fetch and PUT inside
`update_stock_qty` when reached. -/
structure ClientWorld where
  fetch1 : HttpOutcome
  fetch2 : HttpOutcome
  putResp : HttpOutcome
deriving DecidableEq, Repr

/-- The `try:` block of `_sync_part` (fetch, compare, optionally update).
Returns the action trace plus the `MagentoClientError` escaping the block,
if any. -/
def sync_part_try (sku : String) (total_qty : Rat) (log_only : Bool) (event : String)
    (w : ClientWorld) : List Action × Option MagentoClientError :=
  let fr := get_stock_qty sku w.fetch1
  match fr.2 with
  | Except.error e => (fr.1, some e)
  | Except.ok none =>
      (fr.1 ++ [Action.log LogLevel.warning (skuNotFoundSkipMsg event sku)], none)
  | Except.ok (some m2) =>
      if reconcileInSync total_qty m2 then
        (fr.1 ++ [Action.log LogLevel.debug (inSyncMsg event sku total_qty)], none)
      else if log_only then
        (fr.1 ++ [Action.log LogLevel.info (wouldSyncMsg event sku m2 total_qty)], none)
      else
        let ur := update_stock_qty sku total_qty none w.fetch2 w.putResp
        match ur.2 with
        | Except.error e => (fr.1 ++ ur.1, some e)
        | Except.ok true =>
            (fr.1 ++ ur.1 ++ [Action.log LogLevel.info (syncedMsg event sku m2 total_qty)], none)
        | Except.ok false =>
            (fr.1 ++ ur.1 ++ [Action.log LogLevel.error (syncFailedMsg event sku)], none)

/-- `_sync_part`: skip parts with an empty (falsy) name, run the `try:`
block, and catch any `MagentoClientError` with an error-level log record
(`except MagentoClientError as e`), so the function always returns
normally. -/
def _sync_part (sku : String) (part_pk : Int) (total_stock : Rat) (log_only : Bool)
    (event : String) (w : ClientWorld) : List Action :=
  if sku = "" then [Action.log LogLevel.debug (noNameMsg part_pk)]
  else
    match sync_part_try sku total_stock log_only event w with
    | (a, none) => a
    | (a, some e) => a ++ [Action.log LogLevel.error (apiErrorLogMsg event sku e.msg)]

/-- A `Part` row: primary key, `name` (the SKU), `total_stock`. -/
structure PartRow where
  pk : Int
  name : String
  total_stock : Rat
deriving DecidableEq, Repr

/-- A `StockItem` row: its (possibly missing) related part. -/
structure StockItemRow where
  part : Option PartRow
deriving DecidableEq, Repr

/-- The local database as an oracle: lookup by primary key. -/
structure Db where
  stockItems : Int → Option StockItemRow
  parts : Int → Option PartRow

def stockItemMissingMsg (pk : Int) : String :=
  "StockItem " ++ toString pk ++ " not found (may have been deleted)"

def stockItemNoPartMsg (pk : Int) : String :=
  "StockItem " ++ toString pk ++ " has no associated part"

def partMissingMsg (pk : Int) : String :=
  "Part " ++ toString pk ++ " not found"

/-- `_sync_stock_item`: resolve the StockItem and its part, then `_sync_part`. -/
def _sync_stock_item (stock_item_id : Int) (db : Db) (log_only : Bool) (event : String)
    (w : ClientWorld) : List Action :=
  match db.stockItems stock_item_id with
  | none => [Action.log LogLevel.debug (stockItemMissingMsg stock_item_id)]
  | some row =>
      match row.part with
      | none => [Action.log LogLevel.debug (stockItemNoPartMsg stock_item_id)]
      | some part => _sync_part part.name part.pk part.total_stock log_only event w

/-- `_sync_part_by_id`: resolve the Part by primary key, then `_sync_part`. -/
def _sync_part_by_id (part_id : Int) (db : Db) (log_only : Bool) (event : String)
    (w : ClientWorld) : List Action :=
  match db.parts part_id with
  | none => [Action.log LogLevel.debug (partMissingMsg part_id)]
  | some part => _sync_part part.name part.pk part.total_stock log_only event w

def unconfiguredMsg : String := "Magento URL or token not configured"

def noIdMsg (event : String) : String :=
  "Event " ++ event ++ " has no " ++ quoted "id" ++ " in kwargs"

def deletedNoPartIdMsg (pk : Int) : String :=
  "Deleted stock item " ++ toString pk ++ " - no part_id in kwargs, skipping"

/-- `process_event`: bail out when sync is disabled; obtain the client via
the `magento` property (its warning log is emitted when unconfigured); drop
the event when `kwargs.get("id")` is falsy; for `stock_stockitem.deleted`
require a truthy `part_id` and sync by part id, otherwise sync by stock
item id. -/
def process_event (sync_enabled : Bool) (url token : String) (event : String)
    (kwargs : String → Option PyValue) (db : Db) (log_only : Bool) (w : ClientWorld) :
    List Action :=
  if sync_enabled = false then []
  else if url = "" ∨ token = "" then [Action.log LogLevel.warning unconfiguredMsg]
  else if pyTruthy (kwargs "id") = false then
    [Action.log LogLevel.debug (noIdMsg event)]
  else if event = "stock_stockitem.deleted" then
    if pyTruthy (kwargs "part_id") = false then
      [Action.log LogLevel.debug (deletedNoPartIdMsg (pyValueToInt (kwargs "id")))]
    else _sync_part_by_id (pyValueToInt (kwargs "part_id")) db log_only event w
  else _sync_stock_item (pyValueToInt (kwargs "id")) db log_only event w

/-! ## Shared fixtures and helper lemmas -/

/-- A remote stock record with `item_id = 456`, `qty = 50`. -/
def remote50 : StockRecord := { item_id := some 456, qty := some 50 }

/-- A world whose every request gets HTTP 200 with `remote50`. -/
def world50 : ClientWorld :=
  ⟨HttpOutcome.response 200 remote50, HttpOutcome.response 200 remote50,
   HttpOutcome.response 200 remote50⟩

theorem putCalls_append (a b : List Action) :
    putCalls (a ++ b) = putCalls a ++ putCalls b := by
  simp [putCalls, List.filter_append]

theorem get_qty_trace (sku : String) (out : HttpOutcome) :
    (get_stock_qty sku out).1 = (get_stock_item sku out).1 := by
  simp only [get_stock_qty]
  split <;> rfl

theorem putCalls_get_trace (sku : String) (out : HttpOutcome) :
    putCalls (get_stock_item sku out).1 = [] := by
  cases out <;> simp only [get_stock_item] <;>
    first
      | rfl
      | (split
         · rfl
         · split <;> rfl)

/-! ## Claim theorems -/

/-- C1: the reconciliation step of `_sync_part` treats local `L` and remote `R`
as in sync exactly when `|L - R| ≤ max(0.001, 1e-9 * max(|L|, |R|))`; when in
sync no update (PUT) is issued; in particular `L = 50.0000001` vs `R = 50` is
in sync (no PUT), and `L = 50.002` vs `R = 50` is out of sync, so a PUT with
the local quantity is issued when not in log-only mode. -/
theorem C1_reconciliation_tolerance :
    (∀ L R : Rat, reconcileInSync L R = true ↔
        |L - R| ≤ max (1 / 1000) (1 / 1000000000 * max |L| |R|))
    ∧ (∀ (sku : String) (pk : Int) (L m2 : Rat) (lo : Bool) (ev : String) (w : ClientWorld),
        sku ≠ "" → (get_stock_qty sku w.fetch1).2 = Except.ok (some m2) →
        reconcileInSync L m2 = true → putCalls (_sync_part sku pk L lo ev w) = [])
    ∧ reconcileInSync (50.0000001 : Rat) 50 = true
    ∧ reconcileInSync (50.002 : Rat) 50 = false
    ∧ putCalls (_sync_part "P1" 1 (50.0000001 : Rat) false "ev" world50) = []
    ∧ putCalls (_sync_part "P1" 1 (50.002 : Rat) false "ev" world50)
        = [Action.httpPut ⟨putPath "P1" 456, ⟨(50.002 : Rat), true⟩⟩] := by
  have hin : reconcileInSync (50.0000001 : Rat) 50 = true := by
    norm_num [reconcileInSync, isclose, abs, max_def]
  have hout : reconcileInSync (50.002 : Rat) 50 = false := by
    norm_num [reconcileInSync, isclose, abs, max_def]
  have hpos : decide ((50.002 : Rat) > 0) = true := by norm_num
  refine ⟨?_, ?_, hin, hout, ?_, ?_⟩
  · intro L R
    simp only [reconcileInSync, isclose, decide_eq_true_eq]
    rw [max_comm]
  · intro sku pk L m2 lo ev w hsku hq hq2
    unfold _sync_part
    rw [if_neg hsku]
    simp only [sync_part_try, hq, hq2, if_true]
    rw [get_qty_trace, putCalls_append, putCalls_get_trace]
    rfl
  · simp [_sync_part, sync_part_try, get_stock_qty, get_stock_item, world50, remote50, hin,
      putCalls, List.filter]
  · simp [_sync_part, sync_part_try, get_stock_qty, get_stock_item, update_stock_qty,
      world50, remote50, hout, hpos, putCalls, List.filter, pyTruthyOptInt]

/-- Witness for C1: the in-sync / no-PUT conjunct applied at a concrete world. -/
theorem C1_reconciliation_tolerance_witness :
    putCalls (_sync_part "P1" 7 (50 : Rat) false "ev" world50) = [] := by
  refine C1_reconciliation_tolerance.2.1 "P1" 7 50 50 false "ev" world50 (by decide) rfl ?_
  norm_num [reconcileInSync, isclose, abs, max_def]

/-- Alphanumeric-or-hyphen ASCII characters (stated on the code point). -/
def alnumHyphen (c : Char) : Bool :=
  (65 ≤ c.toNat && c.toNat ≤ 90) || (97 ≤ c.toNat && c.toNat ≤ 122) ||
    (48 ≤ c.toNat && c.toNat ≤ 57) || c.toNat == 45

theorem quoteChars_unchanged (l : List Char) (h : ∀ c ∈ l, alnumHyphen c = true) :
    quoteChars l = l := by
  induction l with
  | nil => rfl
  | cons c cs ih =>
      have hc := h c (List.mem_cons_self c cs)
      simp only [alnumHyphen, Bool.or_eq_true, Bool.and_eq_true, decide_eq_true_eq,
        beq_iff_eq] at hc
      have hn : c.toNat < 128 := by omega
      have hs : safeByte c.toNat = true := by
        simp only [safeByte, Bool.or_eq_true, Bool.and_eq_true, decide_eq_true_eq,
          beq_iff_eq]
        omega
      have hrest : quoteChars cs = cs := ih fun x hx => h x (List.mem_cons_of_mem c hx)
      simp only [quoteChars, utf8Bytes, hn, if_true, List.foldr, quoteByteChars, hs,
        Char.ofNat_toNat, hrest]
      rfl

/-- C8: `_encode_sku` percent-encodes the SKU as one path segment with no
character path-safe: `sku/with/slashes` becomes `sku%2Fwith%2Fslashes`,
spaces are escaped, alphanumeric-and-hyphen SKUs are unchanged, and every
ASCII character outside the unreserved set is percent-escaped. -/
theorem C8_encode_sku_path_segment :
    _encode_sku "sku/with/slashes" = "sku%2Fwith%2Fslashes"
    ∧ _encode_sku "sku with spaces" = "sku%20with%20spaces"
    ∧ (∀ sku : String, (∀ c ∈ sku.data, alnumHyphen c = true) → _encode_sku sku = sku)
    ∧ (∀ c : Char, c.toNat < 128 → safeByte c.toNat = false →
        _encode_sku (String.singleton c) = String.mk (pctEncodeByte c.toNat)) := by
  refine ⟨by decide, by decide, ?_, ?_⟩
  · intro sku h
    show String.mk (quoteChars sku.data) = sku
    rw [quoteChars_unchanged sku.data h]
  · intro c hn hs
    show String.mk (quoteChars [c]) = String.mk (pctEncodeByte c.toNat)
    simp only [quoteChars, utf8Bytes, hn, if_true, List.foldr, quoteByteChars, hs,
      Bool.false_eq_true]
    rfl

theorem sku_in_getTimeoutMsg (sku : String) : sku.data <:+: (getTimeoutMsg sku).data :=
  ⟨("Timeout getting stock for SKU " ++ sq).data, sq.data, by
    simp [getTimeoutMsg, quoted, String.data_append]⟩

theorem sku_in_getApiErrMsg (sku cause : String) :
    sku.data <:+: (getApiErrMsg sku cause).data :=
  ⟨("API error for SKU " ++ sq).data, (sq ++ ": " ++ cause).data, by
    simp [getApiErrMsg, quoted, String.data_append]⟩

/-- C2 counterexample: a surfaced 304 response is neither 2xx nor 404, yet
`get_stock_item` returns the parsed record instead of raising, because
`raise_for_status` only raises for statuses 400..599. -/
theorem C2_counterexample :
    (get_stock_item "ABC" (HttpOutcome.response 304 remote50)).2
        = Except.ok (some remote50)
    ∧ ¬((200 : Nat) ≤ 304 ∧ (304 : Nat) < 300) ∧ (304 : Nat) ≠ 404 :=
  ⟨rfl, by decide, by decide⟩

/-- C2 amended: for every SKU, `get_stock_item` returns the absent sentinel
(`none`) on 404 without raising; raises `MagentoClientError` whose message
references the SKU on any status in 400..599 other than 404, on timeout, and
on transport-level failure (which includes HTTP 500 after retries); and
returns the parsed record on every other surfaced response; it raises in no
other case. -/
theorem C2_fetch_classification (sku cause : String) (s : Nat) (rec : StockRecord) :
    ((get_stock_item sku HttpOutcome.timeout).2 = Except.error ⟨getTimeoutMsg sku⟩
        ∧ sku.data <:+: (getTimeoutMsg sku).data)
    ∧ ((get_stock_item sku (HttpOutcome.transportError cause)).2
          = Except.error ⟨getApiErrMsg sku cause⟩
        ∧ sku.data <:+: (getApiErrMsg sku cause).data)
    ∧ (get_stock_item sku (HttpOutcome.response 404 rec)).2 = Except.ok none
    ∧ (400 ≤ s → s < 600 → s ≠ 404 →
        (get_stock_item sku (HttpOutcome.response s rec)).2
          = Except.error ⟨getApiErrMsg sku (httpStatusMsg s)⟩
        ∧ sku.data <:+: (getApiErrMsg sku (httpStatusMsg s)).data)
    ∧ (s < 400 ∨ 600 ≤ s →
        (get_stock_item sku (HttpOutcome.response s rec)).2 = Except.ok (some rec)) := by
  refine ⟨⟨rfl, sku_in_getTimeoutMsg sku⟩, ⟨rfl, sku_in_getApiErrMsg sku cause⟩, rfl, ?_, ?_⟩
  · intro h1 h2 h3
    refine ⟨?_, sku_in_getApiErrMsg sku (httpStatusMsg s)⟩
    simp only [get_stock_item, if_neg h3, if_pos (And.intro h1 h2)]
  · intro h
    have hne : ¬ s = 404 := by omega
    have hno : ¬(400 ≤ s ∧ s < 600) := by omega
    simp only [get_stock_item, if_neg hne, if_neg hno]

/-- Witness for C2: the 500 and 304 branches at concrete inputs. -/
theorem C2_fetch_classification_witness :
    (get_stock_item "W2" (HttpOutcome.response 500 remote50)).2
        = Except.error ⟨getApiErrMsg "W2" (httpStatusMsg 500)⟩
    ∧ (get_stock_item "W2" (HttpOutcome.response 303 remote50)).2
        = Except.ok (some remote50) :=
  ⟨((C2_fetch_classification "W2" "c" 500 remote50).2.2.2.1 (by decide) (by decide)
      (by decide)).1,
   (C2_fetch_classification "W2" "c" 303 remote50).2.2.2.2 (by decide)⟩

/-- C3: when the prior fetch inside `update_stock_qty` reports the SKU absent,
or the fetched record lacks a (truthy) item identifier, `update_stock_qty`
returns `false` without raising and without issuing any PUT request. -/
theorem C3_update_returns_false (sku : String) (qty : Rat) (flag : Option Bool)
    (fetchOut putOut : HttpOutcome) :
    ((get_stock_item sku fetchOut).2 = Except.ok none →
        update_stock_qty sku qty flag fetchOut putOut
          = ((get_stock_item sku fetchOut).1
              ++ [Action.log LogLevel.warning (cannotUpdateMsg sku)], Except.ok false)
        ∧ putCalls (update_stock_qty sku qty flag fetchOut putOut).1 = [])
    ∧ (∀ rec : StockRecord, (get_stock_item sku fetchOut).2 = Except.ok (some rec) →
        pyTruthyOptInt rec.item_id = false →
        update_stock_qty sku qty flag fetchOut putOut
          = ((get_stock_item sku fetchOut).1
              ++ [Action.log LogLevel.error (noItemIdMsg sku)], Except.ok false)
        ∧ putCalls (update_stock_qty sku qty flag fetchOut putOut).1 = []) := by
  constructor
  · intro h
    have he : update_stock_qty sku qty flag fetchOut putOut
        = ((get_stock_item sku fetchOut).1
            ++ [Action.log LogLevel.warning (cannotUpdateMsg sku)], Except.ok false) := by
      simp only [update_stock_qty, h]
    refine ⟨he, ?_⟩
    rw [he, putCalls_append, putCalls_get_trace]
    rfl
  · intro rec h hid
    have he : update_stock_qty sku qty flag fetchOut putOut
        = ((get_stock_item sku fetchOut).1
            ++ [Action.log LogLevel.error (noItemIdMsg sku)], Except.ok false) := by
      simp only [update_stock_qty, h, hid, Bool.false_eq_true, if_false]
    refine ⟨he, ?_⟩
    rw [he, putCalls_append, putCalls_get_trace]
    rfl

/-- Witness for C3: a 404 fetch makes the update a no-op returning `false`. -/
theorem C3_update_returns_false_witness :
    update_stock_qty "W3" 5 none (HttpOutcome.response 404 remote50)
        (HttpOutcome.response 200 remote50)
      = ((get_stock_item "W3" (HttpOutcome.response 404 remote50)).1
          ++ [Action.log LogLevel.warning (cannotUpdateMsg "W3")], Except.ok false) :=
  ((C3_update_returns_false "W3" 5 none (HttpOutcome.response 404 remote50)
      (HttpOutcome.response 200 remote50)).1 rfl).1

/-- C4 counterexample: a PUT answered with a surfaced 304 response (not 2xx)
still makes `update_stock_qty` return `true`. -/
theorem C4_counterexample :
    (update_stock_qty "ABC" 5 none (HttpOutcome.response 200 remote50)
        (HttpOutcome.response 304 remote50)).2 = Except.ok true
    ∧ ¬((200 : Nat) ≤ 304 ∧ (304 : Nat) < 300) :=
  ⟨rfl, by decide⟩

theorem putCalls_single_put (r : PutRequest) :
    putCalls [Action.httpPut r] = [Action.httpPut r] := rfl

theorem putCalls_single_log (lv : LogLevel) (m : String) :
    putCalls [Action.log lv m] = [] := rfl

theorem putCalls_put_log (r : PutRequest) (lv : LogLevel) (m : String) :
    putCalls [Action.httpPut r, Action.log lv m] = [Action.httpPut r] := rfl

/-- C4 amended: whenever `update_stock_qty` issues its write, the request body
is exactly `{"stockItem": {"qty": q, "is_in_stock": f}}` with `f` the caller
override when provided and `q > 0` otherwise (with no override, `q = 100`
yields `is_in_stock = true` and `q = 0` yields `is_in_stock = false`), and
the call returns `true` exactly when the PUT's surfaced response status is
outside 400..599 — in particular on every 2xx response. -/
theorem C4_update_body (sku : String) (qty : Rat) (flag : Option Bool)
    (fetchOut putOut : HttpOutcome) (rec : StockRecord) (iid : Int)
    (hf : (get_stock_item sku fetchOut).2 = Except.ok (some rec))
    (hid : rec.item_id = some iid) (hnz : iid ≠ 0) :
    putCalls (update_stock_qty sku qty flag fetchOut putOut).1
        = [Action.httpPut ⟨putPath sku iid, ⟨qty, flag.getD (decide (qty > 0))⟩⟩]
    ∧ ((update_stock_qty sku qty flag fetchOut putOut).2 = Except.ok true ↔
        ∃ (s : Nat) (rec2 : StockRecord),
          putOut = HttpOutcome.response s rec2 ∧ ¬(400 ≤ s ∧ s < 600))
    ∧ putCalls (update_stock_qty "TEST-SKU" 100 none (HttpOutcome.response 200 remote50)
          (HttpOutcome.response 200 remote50)).1
        = [Action.httpPut ⟨putPath "TEST-SKU" 456, ⟨100, true⟩⟩]
    ∧ putCalls (update_stock_qty "TEST-SKU" 0 none (HttpOutcome.response 200 remote50)
          (HttpOutcome.response 200 remote50)).1
        = [Action.httpPut ⟨putPath "TEST-SKU" 456, ⟨0, false⟩⟩] := by
  have htr : pyTruthyOptInt rec.item_id = true := by
    simp [pyTruthyOptInt, hid, hnz]
  have hiid : rec.item_id.getD 0 = iid := by simp [hid]
  refine ⟨?_, ?_, by decide, by decide⟩
  · simp only [update_stock_qty, hf, htr, if_true, hiid]
    cases putOut with
    | timeout =>
        simp [putCalls_append, putCalls_get_trace, putCalls_single_put, putCalls_single_log,
          putCalls_put_log]
    | transportError cause =>
        simp [putCalls_append, putCalls_get_trace, putCalls_single_put, putCalls_single_log,
          putCalls_put_log]
    | response s rec2 =>
        by_cases hss : 400 ≤ s ∧ s < 600 <;>
          simp [hss, putCalls_append, putCalls_get_trace, putCalls_single_put,
            putCalls_single_log, putCalls_put_log]
  · simp only [update_stock_qty, hf, htr, if_true, hiid]
    cases putOut with
    | timeout => simp
    | transportError cause => simp
    | response s rec2 =>
        by_cases hss : 400 ≤ s ∧ s < 600
        · simp [hss]
        · simp [hss]
          omega

/-- Witness for C4: a successful 200 PUT — body carries the local quantity and
the derived flag, and the call returns `true`. -/
theorem C4_update_body_witness :
    putCalls (update_stock_qty "W4" 3 none (HttpOutcome.response 200 remote50)
        (HttpOutcome.response 200 remote50)).1
      = [Action.httpPut ⟨putPath "W4" 456, ⟨3, Option.getD none (decide ((3:Rat) > 0))⟩⟩] :=
  (C4_update_body "W4" 3 none (HttpOutcome.response 200 remote50)
      (HttpOutcome.response 200 remote50) remote50 456 rfl rfl (by decide)).1

theorem sku_in_apiErrorLogMsg (event sku cause : String) :
    sku.data <:+: (apiErrorLogMsg event sku cause).data :=
  ⟨("[" ++ event ++ "] Magento API error for SKU " ++ sq).data,
   (sq ++ ": " ++ cause).data, by
    simp [apiErrorLogMsg, quoted, String.data_append]⟩

theorem event_in_apiErrorLogMsg (event sku cause : String) :
    event.data <:+: (apiErrorLogMsg event sku cause).data :=
  ⟨"[".data, ("] Magento API error for SKU " ++ quoted sku ++ ": " ++ cause).data, by
    simp [apiErrorLogMsg, String.data_append]⟩

/-- C5: any `MagentoClientError` raised by the client fetch or update inside
`_sync_part`'s try-block is caught there: `_sync_part` returns normally, with
an error-level log record appended that carries the subject's SKU, the
notification kind and the cause — so no client exception escapes the
per-subject processing reached from `process_event`. -/
theorem C5_client_error_caught (sku : String) (pk : Int) (lq : Rat) (log_only : Bool)
    (event : String) (w : ClientWorld) (acts : List Action) (e : MagentoClientError)
    (hsku : sku ≠ "") (h : sync_part_try sku lq log_only event w = (acts, some e)) :
    _sync_part sku pk lq log_only event w
        = acts ++ [Action.log LogLevel.error (apiErrorLogMsg event sku e.msg)]
    ∧ sku.data <:+: (apiErrorLogMsg event sku e.msg).data
    ∧ event.data <:+: (apiErrorLogMsg event sku e.msg).data
    ∧ e.msg.data <:+: (apiErrorLogMsg event sku e.msg).data := by
  refine ⟨?_, sku_in_apiErrorLogMsg event sku e.msg, event_in_apiErrorLogMsg event sku e.msg,
    ⟨("[" ++ event ++ "] Magento API error for SKU " ++ quoted sku ++ ": ").data, [], by
      simp [apiErrorLogMsg, String.data_append]⟩⟩
  unfold _sync_part
  rw [if_neg hsku, h]

/-- Witness for C5: a timed-out fetch is caught and logged. -/
theorem C5_client_error_caught_witness :
    _sync_part "S" 1 0 false "ev"
        ⟨HttpOutcome.timeout, HttpOutcome.timeout, HttpOutcome.timeout⟩
      = [Action.httpGet ("/stockItems/" ++ _encode_sku "S"),
         Action.log LogLevel.error (getTimeoutMsg "S")]
          ++ [Action.log LogLevel.error (apiErrorLogMsg "ev" "S" (getTimeoutMsg "S"))] :=
  (C5_client_error_caught "S" 1 0 false "ev"
      ⟨HttpOutcome.timeout, HttpOutcome.timeout, HttpOutcome.timeout⟩
      [Action.httpGet ("/stockItems/" ++ _encode_sku "S"),
       Action.log LogLevel.error (getTimeoutMsg "S")]
      ⟨getTimeoutMsg "S"⟩ (by decide) rfl).1

theorem remoteQty_in_wouldSyncMsg (event sku : String) (m2 lq : Rat) :
    (toString m2).data <:+: (wouldSyncMsg event sku m2 lq).data :=
  ⟨("[LOG_ONLY] [" ++ event ++ "] Would sync SKU " ++ quoted sku ++ ": Magento ").data,
   (" -> InvenTree " ++ toString lq).data, by
    simp [wouldSyncMsg, String.data_append]⟩

theorem localQty_in_wouldSyncMsg (event sku : String) (m2 lq : Rat) :
    (toString lq).data <:+: (wouldSyncMsg event sku m2 lq).data :=
  ⟨("[LOG_ONLY] [" ++ event ++ "] Would sync SKU " ++ quoted sku ++ ": Magento "
      ++ toString m2 ++ " -> InvenTree ").data, [], by
    simp [wouldSyncMsg, String.data_append]⟩

/-- C6: when the quantities differ beyond tolerance and LOG_ONLY is set,
`_sync_part` issues no write at all and instead logs one info-level
would-sync record stating the remote and local values. -/
theorem C6_log_only_no_write (sku : String) (pk : Int) (lq m2 : Rat) (event : String)
    (w : ClientWorld) (hsku : sku ≠ "")
    (hq : (get_stock_qty sku w.fetch1).2 = Except.ok (some m2))
    (hneq : reconcileInSync lq m2 = false) :
    _sync_part sku pk lq true event w
        = (get_stock_qty sku w.fetch1).1
            ++ [Action.log LogLevel.info (wouldSyncMsg event sku m2 lq)]
    ∧ putCalls (_sync_part sku pk lq true event w) = []
    ∧ (toString m2).data <:+: (wouldSyncMsg event sku m2 lq).data
    ∧ (toString lq).data <:+: (wouldSyncMsg event sku m2 lq).data := by
  have he : _sync_part sku pk lq true event w
      = (get_stock_qty sku w.fetch1).1
          ++ [Action.log LogLevel.info (wouldSyncMsg event sku m2 lq)] := by
    unfold _sync_part
    rw [if_neg hsku]
    simp only [sync_part_try, hq, hneq, Bool.false_eq_true, if_false, if_true]
  refine ⟨he, ?_, remoteQty_in_wouldSyncMsg event sku m2 lq,
    localQty_in_wouldSyncMsg event sku m2 lq⟩
  rw [he, putCalls_append, get_qty_trace, putCalls_get_trace, putCalls_single_log]
  rfl

/-- Witness for C6: local 49 vs remote 50 in log-only mode. -/
theorem C6_log_only_no_write_witness :
    _sync_part "S" 1 49 true "ev" world50
      = (get_stock_qty "S" world50.fetch1).1
          ++ [Action.log LogLevel.info (wouldSyncMsg "ev" "S" 50 49)] :=
  (C6_log_only_no_write "S" 1 49 50 "ev" world50 (by decide) rfl
      (by norm_num [reconcileInSync, isclose, abs, max_def])).1

/-- C7: across invocations the engine holds at most one client, keyed by the
configured URL and token: with both values unchanged and a client cached,
the very same instance is returned with the state untouched; with no client
or either value changed, a new client is constructed from the current
settings and cached with them — the decision compares configuration values,
not object identity. -/
theorem C7_client_cache (st : PluginState) (url token : String)
    (hu : url ≠ "") (ht : token ≠ "") :
    (∀ c : MagentoClient, st._client = some c → st._cached_url = url →
        st._cached_token = token → magento st url token = (some c, st))
    ∧ (st._client = none ∨ st._cached_url ≠ url ∨ st._cached_token ≠ token →
        magento st url token
          = (some (mkMagentoClient url token st.fresh),
             ⟨some (mkMagentoClient url token st.fresh), url, token, st.fresh + 1⟩)) := by
  have hcfg : ¬(url = "" ∨ token = "") := by
    rintro (h | h)
    · exact hu h
    · exact ht h
  constructor
  · intro c hc hcu hct
    have hno : ¬(st._client = none ∨ st._cached_url ≠ url ∨ st._cached_token ≠ token) := by
      rintro (h | h | h)
      · rw [hc] at h
        exact Option.noConfusion h
      · exact h hcu
      · exact h hct
    unfold magento
    rw [if_neg hcfg, if_neg hno, hc]
  · intro h
    unfold magento
    rw [if_neg hcfg, if_pos h]

/-- Witness for C7: reuse with unchanged settings, rebuild on a changed URL. -/
theorem C7_client_cache_witness :
    magento ⟨some ⟨"u", "t", 0⟩, "u", "t", 1⟩ "u" "t"
        = (some ⟨"u", "t", 0⟩, ⟨some ⟨"u", "t", 0⟩, "u", "t", 1⟩)
    ∧ magento ⟨some ⟨"u", "t", 0⟩, "u", "t", 1⟩ "u2" "t"
        = (some (mkMagentoClient "u2" "t" 1),
           ⟨some (mkMagentoClient "u2" "t" 1), "u2", "t", 2⟩) :=
  ⟨(C7_client_cache ⟨some ⟨"u", "t", 0⟩, "u", "t", 1⟩ "u" "t"
      (by decide) (by decide)).1 ⟨"u", "t", 0⟩ rfl rfl rfl,
   (C7_client_cache ⟨some ⟨"u", "t", 0⟩, "u", "t", 1⟩ "u2" "t"
      (by decide) (by decide)).2 (Or.inr (Or.inl (by decide)))⟩

/-- C9: on a 2xx fetch whose record carries no quantity field, the quantity
defaults to 0: `get_stock_qty` returns `some 0`. -/
theorem C9_missing_qty_defaults_zero (sku : String) (s : Nat) (rec : StockRecord)
    (h2 : 200 ≤ s) (h3 : s < 300) (hq : rec.qty = none) :
    (get_stock_qty sku (HttpOutcome.response s rec)).2 = Except.ok (some 0) := by
  have hne : ¬ s = 404 := by omega
  have hno : ¬(400 ≤ s ∧ s < 600) := by omega
  have hi : (get_stock_item sku (HttpOutcome.response s rec)).2 = Except.ok (some rec) := by
    simp only [get_stock_item, if_neg hne, if_neg hno]
  simp only [get_stock_qty, hi, hq]
  rfl

/-- Witness for C9: a 200 response whose record has `item_id` but no `qty`. -/
theorem C9_missing_qty_defaults_zero_witness :
    (get_stock_qty "W9" (HttpOutcome.response 200 ⟨some 1, none⟩)).2
      = Except.ok (some 0) :=
  C9_missing_qty_defaults_zero "W9" 200 ⟨some 1, none⟩ (by decide) (by decide) rfl

/-- C10: with sync enabled and the client configured, a missing or falsy
payload `id` (None, 0, empty string) makes `process_event` drop the event
with one debug log record: no subject is resolved and no remote GET or PUT
is issued, for deletion and non-deletion events alike. -/
theorem C10_falsy_id_dropped (url token event : String) (kwargs : String → Option PyValue)
    (db : Db) (log_only : Bool) (w : ClientWorld)
    (hu : url ≠ "") (ht : token ≠ "") (hid : pyTruthy (kwargs "id") = false) :
    process_event true url token event kwargs db log_only w
        = [Action.log LogLevel.debug (noIdMsg event)]
    ∧ remoteCalls (process_event true url token event kwargs db log_only w) = [] := by
  have hcfg : ¬(url = "" ∨ token = "") := by
    rintro (h | h)
    · exact hu h
    · exact ht h
  have he : process_event true url token event kwargs db log_only w
      = [Action.log LogLevel.debug (noIdMsg event)] := by
    unfold process_event
    rw [if_neg (by simp), if_neg hcfg, if_pos hid]
  refine ⟨he, ?_⟩
  rw [he]
  rfl

/-- A database with no rows at all. -/
def dbEmpty : Db := ⟨fun _ => none, fun _ => none⟩

/-- Witness for C10: a primary key of 0 on a deletion event, and a missing
`id` on a non-deletion event, are both dropped. -/
theorem C10_falsy_id_dropped_witness :
    process_event true "u" "t" "stock_stockitem.deleted"
        (fun k => if k = "id" then some (PyValue.vInt 0) else none) dbEmpty false world50
      = [Action.log LogLevel.debug (noIdMsg "stock_stockitem.deleted")]
    ∧ process_event true "u" "t" "stockitem.counted"
        (fun _ => none) dbEmpty false world50
      = [Action.log LogLevel.debug (noIdMsg "stockitem.counted")] :=
  ⟨(C10_falsy_id_dropped "u" "t" "stock_stockitem.deleted"
      (fun k => if k = "id" then some (PyValue.vInt 0) else none) dbEmpty false world50
      (by decide) (by decide) rfl).1,
   (C10_falsy_id_dropped "u" "t" "stockitem.counted"
      (fun _ => none) dbEmpty false world50
      (by decide) (by decide) rfl).1⟩

/-- Witness for C8: the unchanged and the escaped conjuncts at concrete inputs. -/
theorem C8_encode_sku_path_segment_witness :
    _encode_sku "ABC-123" = "ABC-123" ∧ _encode_sku " " = "%20" :=
  ⟨C8_encode_sku_path_segment.2.2.1 "ABC-123" (by decide),
   C8_encode_sku_path_segment.2.2.2 ' ' (by decide) (by decide)⟩

end MagentoSync
